import Mathlib

/-!
Shallow embedding of the hal-x button/switch core (src/switch.rs, src/direction.rs,
src/mock/pin.rs, src/button.rs) and proofs about the gesture-detector step logic.

Machine integers are modelled as Nat with explicit wrapping where the Rust code
can wrap in release builds: the `u128` subtraction `this_mls - self.btn_timer`
is modelled by `wsub` (wrapping mod 2^128) and the `u8` increment
`self.btn_counter += 1` by `(· + 1) % 256`.
-/

namespace HalX

/-- Pin state, from src/switch.rs (`enum State { Disabled, Enabled }`).
`Enabled` is the electrically high level of the mock pin. -/
inductive PinState where
  | Disabled : PinState
  | Enabled : PinState
  deriving DecidableEq

/-- Direction tag, from src/direction.rs (`Normal` has IS_NORMAL = true,
`Reverse` has IS_NORMAL = false). -/
inductive Direction where
  | Normal : Direction
  | Reverse : Direction
  deriving DecidableEq

/-- IS_NORMAL associated constant of the Direction trait. -/
def Direction.isNormal : Direction → Bool
  | .Normal => true
  | .Reverse => false

namespace Pin

/-- Mock pin `is_high`, from src/mock/pin.rs: `Ok(self.state == State::Enabled)`.
The mock pin's error type is Infallible, so the read is modelled as a pure Bool. -/
def is_high (p : PinState) : Bool := p = PinState.Enabled

/-- Mock pin `is_low`, from src/mock/pin.rs: `Ok(self.state == State::Disabled)`. -/
def is_low (p : PinState) : Bool := p = PinState.Disabled

/-- Mock pin `set_high`, from src/mock/pin.rs: `self.state = State::Enabled`. -/
def set_high (_p : PinState) : PinState := PinState.Enabled

/-- Mock pin `set_low`, from src/mock/pin.rs: `self.state = State::Disabled`. -/
def set_low (_p : PinState) : PinState := PinState.Disabled

end Pin

namespace Switch

/-- Switch::try_enable over the mock pin, from src/switch.rs:
`if D::IS_NORMAL { self.inner.set_high() } else { self.inner.set_low() }`. -/
def try_enable (d : Direction) (p : PinState) : PinState :=
  if d.isNormal then Pin.set_high p else Pin.set_low p

/-- Switch::try_disable over the mock pin, from src/switch.rs:
`if D::IS_NORMAL { self.inner.set_low() } else { self.inner.set_high() }`. -/
def try_disable (d : Direction) (p : PinState) : PinState :=
  if d.isNormal then Pin.set_low p else Pin.set_high p

/-- Switch::try_check_is_enabled over the mock pin, from src/switch.rs:
`if D::IS_NORMAL { self.inner.is_high() } else { self.inner.is_low() }`. -/
def try_check_is_enabled (d : Direction) (p : PinState) : Bool :=
  if d.isNormal then Pin.is_high p else Pin.is_low p

/-- Switch::try_check_is_disabled over the mock pin, from src/switch.rs:
`if D::IS_NORMAL { self.inner.is_low() } else { self.inner.is_high() }`. -/
def try_check_is_disabled (d : Direction) (p : PinState) : Bool :=
  if d.isNormal then Pin.is_low p else Pin.is_high p

end Switch

/-- Flag record of the button, from src/button.rs (`struct ButtonFlags`). -/
structure ButtonFlags where
  btn_deb : Bool
  hold : Bool
  counter : Bool
  is_holded : Bool
  is_release : Bool
  is_press : Bool
  step_flag : Bool
  one_click : Bool
  is_one : Bool
  mode : Bool
  tick_mode : Bool
  no_pin : Bool
  counter_reset : Bool
  deriving DecidableEq

/-- Detector state, from src/button.rs (`struct Button`), with the pin factored
out: the tick below takes the result of `pin.try_check_is_disabled()` as input.
`btn_counter` is u8, `last_counter`/`last_hold_counter` u32, `btn_timer` u128,
`debounce`/`timeout`/`click_timeout`/`step_timeout` u16, all modelled as Nat. -/
structure Button where
  flags : ButtonFlags
  btn_counter : Nat
  last_counter : Nat
  last_hold_counter : Nat
  btn_timer : Nat
  btn_state : Bool
  btn_flag : Bool
  debounce : Nat
  timeout : Nat
  click_timeout : Nat
  step_timeout : Nat
  deriving DecidableEq

/-- ButtonFlags value produced by Button::new (all false). -/
def ButtonFlags.new : ButtonFlags :=
  { btn_deb := false, hold := false, counter := false, is_holded := false
  , is_release := false, is_press := false, step_flag := false, one_click := false
  , is_one := false, mode := false, tick_mode := false, no_pin := false
  , counter_reset := false }

/-- Button::new, from src/button.rs: all flags false, counters and timer 0,
debounce 60, timeout 500, click_timeout 500, step_timeout 400. -/
def Button.new : Button :=
  { flags := ButtonFlags.new, btn_counter := 0, last_counter := 0
  , last_hold_counter := 0, btn_timer := 0, btn_state := false, btn_flag := false
  , debounce := 60, timeout := 500, click_timeout := 500, step_timeout := 400 }

/-- Wrapping u128 subtraction (release-build semantics of Rust `a - b` on u128),
for operands below 2^128. -/
def wsub (a b : Nat) : Nat := if b ≤ a then a - b else a + 2 ^ 128 - b

namespace Button

/-- Press/debounce block of try_tick_with_resource, src/button.rs lines 287-301.
`btn_state` has already been set to the sampled level. -/
def debounceStep (now : Nat) (b : Button) : Button :=
  if b.btn_state ∧ ¬b.btn_flag then
    if ¬b.flags.btn_deb then
      { b with flags.btn_deb := true, btn_timer := now }
    else if b.debounce ≤ wsub now b.btn_timer then
      { b with btn_flag := true, flags.is_press := true, flags.one_click := true }
    else b
  else
    { b with flags.btn_deb := false }

/-- Release block of try_tick_with_resource, src/button.rs lines 303-321. -/
def releaseStep (now : Nat) (b : Button) : Button :=
  if ¬b.btn_state ∧ b.btn_flag then
    let b1 := { b with btn_flag := false }
    let b2 := if ¬b1.flags.hold
      then { b1 with btn_counter := (b1.btn_counter + 1) % 256 } else b1
    let b3 := { b2 with flags.hold := false, flags.is_release := true, btn_timer := now }
    let b4 := if b3.flags.step_flag
      then { b3 with last_counter := 0, btn_counter := 0, flags.step_flag := false }
      else b3
    if b4.flags.one_click
      then { b4 with flags.one_click := false, flags.is_one := true } else b4
  else b

/-- Hold block of try_tick_with_resource, src/button.rs lines 323-337.
Note the commented-out `self.btn_counter = 0` in the source: the pending click
counter is NOT cleared here, only recorded into `last_hold_counter`. -/
def holdStep (now : Nat) (b : Button) : Button :=
  if b.btn_flag ∧ b.btn_state ∧ b.timeout ≤ wsub now b.btn_timer ∧ ¬b.flags.hold then
    { b with
      flags := { b.flags with
                   hold := true
                   is_holded := true
                   step_flag := true
                   one_click := false }
      last_hold_counter := b.btn_counter
      btn_timer := now }
  else b

/-- Click-group finalization block of try_tick_with_resource, src/button.rs
lines 339-348. -/
def clickGroupStep (now : Nat) (b : Button) : Button :=
  if b.click_timeout ≤ wsub now b.btn_timer ∧ b.btn_counter ≠ 0 ∧ ¬b.btn_state then
    { b with last_counter := b.btn_counter, btn_counter := 0, flags.counter := true }
  else b

/-- Consumer-acknowledgment block of try_tick_with_resource, src/button.rs
lines 350-355. -/
def counterResetStep (b : Button) : Button :=
  if b.flags.counter_reset then
    { b with last_counter := 0, flags.counter := false, flags.counter_reset := false }
  else b

/-- State after the sample, debounce, release and hold blocks of one tick
(the intermediate state the click-group condition is evaluated against). -/
def tickMid (lvl : Bool) (now : Nat) (b : Button) : Button :=
  holdStep now (releaseStep now (debounceStep now { b with btn_state := lvl }))

/-- One successful tick of try_tick_with_resource, src/button.rs lines 281-358:
`lvl` is the Ok value returned by `self.pin.try_check_is_disabled()`, `now` is
`uptime.get().as_millis()`. -/
def tick (lvl : Bool) (now : Nat) (b : Button) : Button :=
  counterResetStep (clickGroupStep now (tickMid lvl now b))

/-- try_tick_with_resource, src/button.rs lines 281-358, over an abstract
fallible pin: `read` is the result of `self.pin.try_check_is_disabled()`.
The `?` operator returns the error before the assignment to `self.btn_state`,
so on error the state is passed through unchanged. -/
def try_tick_with_resource {ε : Type} (read : Except ε Bool) (now : Nat)
    (b : Button) : Except ε Unit × Button :=
  match read with
  | .error e => (.error e, b)
  | .ok lvl => (.ok (), tick lvl now b)

/-- set_tick_mode, src/button.rs lines 107-109. -/
def set_tick_mode (m : Bool) (b : Button) : Button :=
  { b with flags.tick_mode := m }

/-- is_press accessor, src/button.rs lines 111-121 (the tick-mode block is
commented out in the source). Returns the value and the updated state. -/
def is_press (b : Button) : Bool × Button :=
  if b.flags.is_press then (true, { b with flags.is_press := false })
  else (false, b)

/-- is_release accessor, src/button.rs lines 123-133. -/
def is_release (b : Button) : Bool × Button :=
  if b.flags.is_release then (true, { b with flags.is_release := false })
  else (false, b)

/-- is_click accessor, src/button.rs lines 135-145. -/
def is_click (b : Button) : Bool × Button :=
  if b.flags.is_one then (true, { b with flags.is_one := false })
  else (false, b)

/-- is_holded accessor, src/button.rs lines 147-157. -/
def is_holded (b : Button) : Bool × Button :=
  if b.flags.is_holded then (true, { b with flags.is_holded := false })
  else (false, b)

/-- is_hold accessor, src/button.rs lines 159-164: a level read of step_flag. -/
def is_hold (b : Button) : Bool × Button := (b.flags.step_flag, b)

/-- state accessor, src/button.rs lines 166-171: a level read of btn_state. -/
def state (b : Button) : Bool × Button := (b.btn_state, b)

/-- is_single accessor, src/button.rs lines 173-185. -/
def is_single (b : Button) : Bool × Button :=
  if b.flags.counter ∧ b.last_counter = 1
    then (true, { b with flags.counter_reset := true }) else (false, b)

/-- is_double accessor, src/button.rs lines 187-199. -/
def is_double (b : Button) : Bool × Button :=
  if b.flags.counter ∧ b.last_counter = 2
    then (true, { b with flags.counter_reset := true }) else (false, b)

/-- is_triple accessor, src/button.rs lines 201-213. -/
def is_triple (b : Button) : Bool × Button :=
  if b.flags.counter ∧ b.last_counter = 3
    then (true, { b with flags.counter_reset := true }) else (false, b)

/-- has_clicks accessor, src/button.rs lines 215-225. -/
def has_clicks (b : Button) : Bool × Button :=
  if b.flags.counter then (true, { b with flags.counter_reset := true })
  else (false, b)

/-- get_clicks accessor, src/button.rs lines 227-230. -/
def get_clicks (b : Button) : Nat × Button :=
  (b.last_counter, { b with flags.counter_reset := true })

/-- get_hold_clicks accessor, src/button.rs lines 232-237. -/
def get_hold_clicks (b : Button) : Nat × Button := (b.last_hold_counter, b)

/-- reset_states, src/button.rs lines 254-263. -/
def reset_states (b : Button) : Button :=
  { b with
    flags := { b.flags with
                 is_press := false
                 is_release := false
                 is_one := false
                 is_holded := false
                 step_flag := false
                 counter := false }
    last_hold_counter := 0
    last_counter := 0 }

end Button

/-- Run the detector from `base`, ticking once per millisecond: `runBtn lvl base n`
is the state after the steps at times 0, 1, ..., n, where the pin sample at
time t is `lvl t`. -/
def runBtn (lvl : Nat → Bool) (base : Button) : Nat → Button
  | 0 => Button.tick (lvl 0) 0 base
  | n + 1 => Button.tick (lvl (n + 1)) (n + 1) (runBtn lvl base n)

end HalX

namespace HalX

/-! Basic lemmas about the wrapping subtraction and the tick stages. -/

lemma wsub_zero (a : Nat) : wsub a 0 = a := by simp [wsub]

lemma wsub_of_le {a b : Nat} (h : b ≤ a) : wsub a b = a - b := by simp [wsub, h]

namespace Button

lemma debounceStep_btn_state (now : Nat) (b : Button) :
    (debounceStep now b).btn_state = b.btn_state := by
  unfold debounceStep; split_ifs <;> rfl

lemma releaseStep_btn_state (now : Nat) (b : Button) :
    (releaseStep now b).btn_state = b.btn_state := by
  unfold releaseStep; dsimp only; split_ifs <;> rfl

lemma holdStep_btn_state (now : Nat) (b : Button) :
    (holdStep now b).btn_state = b.btn_state := by
  unfold holdStep; split_ifs <;> rfl

lemma clickGroupStep_btn_state (now : Nat) (b : Button) :
    (clickGroupStep now b).btn_state = b.btn_state := by
  unfold clickGroupStep; split_ifs <;> rfl

lemma counterResetStep_btn_state (b : Button) :
    (counterResetStep b).btn_state = b.btn_state := by
  unfold counterResetStep; split_ifs <;> rfl

lemma tickMid_btn_state (lvl : Bool) (now : Nat) (b : Button) :
    (tickMid lvl now b).btn_state = lvl := by
  unfold tickMid
  rw [holdStep_btn_state, releaseStep_btn_state, debounceStep_btn_state]

lemma tick_btn_state (lvl : Bool) (now : Nat) (b : Button) :
    (tick lvl now b).btn_state = lvl := by
  unfold tick
  rw [counterResetStep_btn_state, clickGroupStep_btn_state, tickMid_btn_state]

end Button

/-- Claim C1, counterexample: a Normal-tagged detector over the mock pin whose
raw level is high (`Enabled`, so `is_high` returns true) samples `btn_state`
as false after a successful step, contradicting "for a Normal-tagged detector,
`btn_state` is true exactly when the raw pin reads high". -/
theorem c1_normal_high_counterexample :
    Pin.is_high PinState.Enabled = true
    ∧ (Button.tick (Switch.try_check_is_disabled Direction.Normal PinState.Enabled)
        0 Button.new).btn_state = false := by
  constructor
  · decide
  · rw [Button.tick_btn_state]; decide

/-- Claim C1, amended: on every successful step the level sampled into
`btn_state` is the Polarity Adapter's "disabled" reading of the pin
(`try_check_is_disabled`), which for a Normal-tagged detector is true exactly
when the raw pin reads low and for a Reverse-tagged detector exactly when the
raw pin reads high. -/
theorem c1_btn_state_reads_disabled (d : Direction) (p : PinState) (now : Nat)
    (b : Button) :
    (Button.tick (Switch.try_check_is_disabled d p) now b).btn_state
      = Switch.try_check_is_disabled d p
    ∧ Switch.try_check_is_disabled Direction.Normal p = Pin.is_low p
    ∧ Switch.try_check_is_disabled Direction.Reverse p = Pin.is_high p := by
  refine ⟨Button.tick_btn_state _ _ _, ?_, ?_⟩ <;> cases p <;> rfl

/-- Claim C4: if the adapter read fails, try_tick_with_resource returns that
error and the detector state is passed through completely unchanged; if the
read succeeds, the step returns Ok. -/
theorem c4_fail_atomic {ε : Type} (e : ε) (lvl : Bool) (now : Nat) (b : Button) :
    Button.try_tick_with_resource (Except.error e) now b = (Except.error e, b)
    ∧ (Button.try_tick_with_resource (ε := ε) (Except.ok lvl) now b).1
        = Except.ok () := ⟨rfl, rfl⟩

/-- Claim C8: for both direction tags, assert (`try_enable`) and the logical
reads are mutually consistent: after a successful `try_enable` on the mock pin,
`try_check_is_enabled` reads true and `try_check_is_disabled` reads false; and
the raw mappings are Normal: enable → set_high / enabled → is_high, Reverse:
enable → set_low / enabled → is_low. -/
theorem c8_switch_enable_read_consistent (d : Direction) (p : PinState) :
    Switch.try_check_is_enabled d (Switch.try_enable d p) = true
    ∧ Switch.try_check_is_disabled d (Switch.try_enable d p) = false
    ∧ Switch.try_enable Direction.Normal p = Pin.set_high p
    ∧ Switch.try_enable Direction.Reverse p = Pin.set_low p
    ∧ Switch.try_check_is_enabled Direction.Normal p = Pin.is_high p
    ∧ Switch.try_check_is_enabled Direction.Reverse p = Pin.is_low p := by
  cases d <;> cases p <;> decide

/-- Concrete detector state with two pending (unfinalized) clicks. -/
def c9state : Button := { Button.new with btn_counter := 2 }

/-- Claim C9, counterexample: `reset_states` does not clear the pending click
counter `btn_counter`: from a state with two pending clicks, `btn_counter` is
still 2 (not 0) after `reset_states`, contradicting "every counter back to the
idle state". -/
theorem c9_reset_keeps_btn_counter_counterexample :
    (Button.reset_states c9state).btn_counter = 2
    ∧ (Button.reset_states c9state).btn_counter ≠ 0 := by decide

/-- Claim C9, amended: `reset_states` clears the press, release, single-click,
hold-started, holding-now and group-ready flags and zeroes the finalized click
count and the hold click count, but leaves the pending click counter
`btn_counter` unchanged. -/
theorem c9_reset_states_effect (b : Button) :
    (Button.reset_states b).flags.is_press = false
    ∧ (Button.reset_states b).flags.is_release = false
    ∧ (Button.reset_states b).flags.is_one = false
    ∧ (Button.reset_states b).flags.is_holded = false
    ∧ (Button.reset_states b).flags.step_flag = false
    ∧ (Button.reset_states b).flags.counter = false
    ∧ (Button.reset_states b).last_counter = 0
    ∧ (Button.reset_states b).last_hold_counter = 0
    ∧ (Button.reset_states b).btn_counter = b.btn_counter :=
  ⟨rfl, rfl, rfl, rfl, rfl, rfl, rfl, rfl, rfl⟩

end HalX

namespace HalX

/-- Concrete detector state with auto-tick enabled and a pending consumer
acknowledgment request (so that any step, at any level and time, would visibly
mutate the state by clearing `counter_reset`). -/
def c2state : Button :=
  { Button.new with flags := { ButtonFlags.new with
                                 tick_mode := true
                                 counter_reset := true } }

/-- Claim C2, counterexample: with the auto-tick flag enabled the accessor
`is_press` does not advance the detector: it leaves the state completely
unchanged, although a step (at any sampled level) would have cleared the
pending `counter_reset` request. The tick-mode blocks in every accessor are
commented out in src/button.rs. -/
theorem c2_accessor_no_tick_counterexample :
    c2state.flags.tick_mode = true
    ∧ Button.is_press c2state = (false, c2state)
    ∧ (Button.tick true 3 c2state).flags.counter_reset = false
    ∧ (Button.tick false 3 c2state).flags.counter_reset = false := by decide

/-- Claim C2, amended: no accessor ever performs a step, whether the auto-tick
flag is enabled or not: every accessor commutes with `set_tick_mode` (so
`tick_mode` has no influence on the value returned or on the state effect),
and every accessor leaves `btn_timer` and `btn_state` untouched. -/
theorem c2_accessors_ignore_tick_mode (b : Button) (m : Bool) :
    (Button.is_press (Button.set_tick_mode m b)
        = ((Button.is_press b).1, Button.set_tick_mode m (Button.is_press b).2)
      ∧ (Button.is_press b).2.btn_timer = b.btn_timer
      ∧ (Button.is_press b).2.btn_state = b.btn_state)
    ∧ (Button.is_release (Button.set_tick_mode m b)
        = ((Button.is_release b).1, Button.set_tick_mode m (Button.is_release b).2)
      ∧ (Button.is_release b).2.btn_timer = b.btn_timer
      ∧ (Button.is_release b).2.btn_state = b.btn_state)
    ∧ (Button.is_click (Button.set_tick_mode m b)
        = ((Button.is_click b).1, Button.set_tick_mode m (Button.is_click b).2)
      ∧ (Button.is_click b).2.btn_timer = b.btn_timer
      ∧ (Button.is_click b).2.btn_state = b.btn_state)
    ∧ (Button.is_holded (Button.set_tick_mode m b)
        = ((Button.is_holded b).1, Button.set_tick_mode m (Button.is_holded b).2)
      ∧ (Button.is_holded b).2.btn_timer = b.btn_timer
      ∧ (Button.is_holded b).2.btn_state = b.btn_state)
    ∧ (Button.is_hold (Button.set_tick_mode m b)
        = ((Button.is_hold b).1, Button.set_tick_mode m (Button.is_hold b).2)
      ∧ (Button.is_hold b).2.btn_timer = b.btn_timer
      ∧ (Button.is_hold b).2.btn_state = b.btn_state)
    ∧ (Button.state (Button.set_tick_mode m b)
        = ((Button.state b).1, Button.set_tick_mode m (Button.state b).2)
      ∧ (Button.state b).2.btn_timer = b.btn_timer
      ∧ (Button.state b).2.btn_state = b.btn_state)
    ∧ (Button.is_single (Button.set_tick_mode m b)
        = ((Button.is_single b).1, Button.set_tick_mode m (Button.is_single b).2)
      ∧ (Button.is_single b).2.btn_timer = b.btn_timer
      ∧ (Button.is_single b).2.btn_state = b.btn_state)
    ∧ (Button.is_double (Button.set_tick_mode m b)
        = ((Button.is_double b).1, Button.set_tick_mode m (Button.is_double b).2)
      ∧ (Button.is_double b).2.btn_timer = b.btn_timer
      ∧ (Button.is_double b).2.btn_state = b.btn_state)
    ∧ (Button.is_triple (Button.set_tick_mode m b)
        = ((Button.is_triple b).1, Button.set_tick_mode m (Button.is_triple b).2)
      ∧ (Button.is_triple b).2.btn_timer = b.btn_timer
      ∧ (Button.is_triple b).2.btn_state = b.btn_state)
    ∧ (Button.has_clicks (Button.set_tick_mode m b)
        = ((Button.has_clicks b).1, Button.set_tick_mode m (Button.has_clicks b).2)
      ∧ (Button.has_clicks b).2.btn_timer = b.btn_timer
      ∧ (Button.has_clicks b).2.btn_state = b.btn_state) := by
  obtain ⟨⟨g1, g2, g3, g4, g5, g6, g7, g8, g9, g10, g11, g12, g13⟩,
          n1, n2, n3, n4, w1, w2, n5, n6, n7, n8⟩ := b
  refine ⟨?_, ?_, ?_, ?_, ?_, ?_, ?_, ?_, ?_, ?_⟩ <;>
    simp only [Button.is_press, Button.is_release, Button.is_click,
      Button.is_holded, Button.is_hold, Button.state, Button.is_single,
      Button.is_double, Button.is_triple, Button.has_clicks,
      Button.set_tick_mode] <;>
    (try split_ifs) <;> simp_all

end HalX

namespace HalX

/-- Claim C10: if a finalized click group is still unacknowledged
(`flags.counter` true, `last_counter` positive, no acknowledgment pending) when
the release ending a hold is processed (sampled level deasserted, `btn_flag`,
`flags.step_flag` and `flags.hold` all set by the preceding hold), then that
step zeroes `last_counter` without clearing `flags.counter`; from the resulting
state `has_clicks` returns true while `get_clicks` returns 0 and `is_single`,
`is_double`, `is_triple` all return false. -/
theorem c10_group_ready_desync (b : Button) (now : Nat)
    (hc : b.flags.counter = true) (hcr : b.flags.counter_reset = false)
    (hf : b.btn_flag = true) (hsf : b.flags.step_flag = true)
    (hh : b.flags.hold = true) (hn : 0 < b.last_counter) :
    (Button.tick false now b).last_counter = 0
    ∧ (Button.tick false now b).flags.counter = true
    ∧ (Button.has_clicks (Button.tick false now b)).1 = true
    ∧ (Button.get_clicks (Button.tick false now b)).1 = 0
    ∧ (Button.is_single (Button.tick false now b)).1 = false
    ∧ (Button.is_double (Button.tick false now b)).1 = false
    ∧ (Button.is_triple (Button.tick false now b)).1 = false := by
  obtain ⟨⟨g1, g2, g3, g4, g5, g6, g7, g8, g9, g10, g11, g12, g13⟩,
          n1, n2, n3, n4, w1, w2, n5, n6, n7, n8⟩ := b
  change g3 = true at hc
  change g13 = false at hcr
  change w2 = true at hf
  change g7 = true at hsf
  change g2 = true at hh
  subst hc hcr hf hsf hh
  cases g8 <;>
    simp [Button.tick, Button.tickMid, Button.debounceStep,
      Button.releaseStep, Button.holdStep, Button.clickGroupStep,
      Button.counterResetStep, Button.has_clicks, Button.get_clicks,
      Button.is_single, Button.is_double, Button.is_triple]

end HalX

namespace HalX

/-- Concrete detector state for the C10 scenario: an unacknowledged single-click
group (`counter` flag set, `last_counter` 1) while a hold's release is about to
be processed (`btn_flag`, `step_flag`, `hold` all set). -/
def c10w : Button :=
  { Button.new with
    flags := { ButtonFlags.new with
                 counter := true
                 step_flag := true
                 hold := true }
    btn_flag := true
    last_counter := 1 }

theorem c10_group_ready_desync_witness :
    (Button.tick false 0 c10w).last_counter = 0
    ∧ (Button.tick false 0 c10w).flags.counter = true
    ∧ (Button.has_clicks (Button.tick false 0 c10w)).1 = true
    ∧ (Button.get_clicks (Button.tick false 0 c10w)).1 = 0
    ∧ (Button.is_single (Button.tick false 0 c10w)).1 = false
    ∧ (Button.is_double (Button.tick false 0 c10w)).1 = false
    ∧ (Button.is_triple (Button.tick false 0 c10w)).1 = false :=
  c10_group_ready_desync c10w 0 (by decide) (by decide) (by decide) (by decide)
    (by decide) (by decide)

end HalX

namespace HalX

namespace Button

/-! Skip lemmas: conditions under which a tick stage leaves the state alone. -/

lemma debounceStep_of_released (now : Nat) (b : Button) (h : b.btn_state = false) :
    debounceStep now b = { b with flags.btn_deb := false } := by
  unfold debounceStep; rw [if_neg (by simp [h])]

lemma releaseStep_of_pressed (now : Nat) (b : Button) (h : b.btn_state = true) :
    releaseStep now b = b := by
  unfold releaseStep; rw [if_neg (by simp [h])]

lemma releaseStep_of_no_flag (now : Nat) (b : Button) (h : b.btn_flag = false) :
    releaseStep now b = b := by
  unfold releaseStep; rw [if_neg (by simp [h])]

lemma holdStep_of_released (now : Nat) (b : Button) (h : b.btn_state = false) :
    holdStep now b = b := by
  unfold holdStep; rw [if_neg (by simp [h])]

lemma clickGroupStep_of_pressed (now : Nat) (b : Button) (h : b.btn_state = true) :
    clickGroupStep now b = b := by
  unfold clickGroupStep; rw [if_neg (by simp [h])]

lemma clickGroupStep_of_zero (now : Nat) (b : Button) (h : b.btn_counter = 0) :
    clickGroupStep now b = b := by
  unfold clickGroupStep; rw [if_neg (by simp [h])]

lemma counterResetStep_of_clear (b : Button) (h : b.flags.counter_reset = false) :
    counterResetStep b = b := by
  unfold counterResetStep; rw [if_neg (by simp [h])]

/-! Field-preservation lemmas for the tick stages. -/

lemma debounceStep_btn_counter (now : Nat) (b : Button) :
    (debounceStep now b).btn_counter = b.btn_counter := by
  unfold debounceStep; split_ifs <;> rfl

lemma debounceStep_last_counter (now : Nat) (b : Button) :
    (debounceStep now b).last_counter = b.last_counter := by
  unfold debounceStep; split_ifs <;> rfl

lemma debounceStep_flags_counter (now : Nat) (b : Button) :
    (debounceStep now b).flags.counter = b.flags.counter := by
  unfold debounceStep; split_ifs <;> rfl

lemma debounceStep_counter_reset (now : Nat) (b : Button) :
    (debounceStep now b).flags.counter_reset = b.flags.counter_reset := by
  unfold debounceStep; split_ifs <;> rfl

lemma debounceStep_click_timeout (now : Nat) (b : Button) :
    (debounceStep now b).click_timeout = b.click_timeout := by
  unfold debounceStep; split_ifs <;> rfl

lemma releaseStep_flags_counter (now : Nat) (b : Button) :
    (releaseStep now b).flags.counter = b.flags.counter := by
  unfold releaseStep; dsimp only; split_ifs <;> rfl

lemma releaseStep_counter_reset (now : Nat) (b : Button) :
    (releaseStep now b).flags.counter_reset = b.flags.counter_reset := by
  unfold releaseStep; dsimp only; split_ifs <;> rfl

lemma releaseStep_click_timeout (now : Nat) (b : Button) :
    (releaseStep now b).click_timeout = b.click_timeout := by
  unfold releaseStep; dsimp only; split_ifs <;> rfl

lemma holdStep_btn_counter (now : Nat) (b : Button) :
    (holdStep now b).btn_counter = b.btn_counter := by
  unfold holdStep; split_ifs <;> rfl

lemma holdStep_last_counter (now : Nat) (b : Button) :
    (holdStep now b).last_counter = b.last_counter := by
  unfold holdStep; split_ifs <;> rfl

lemma holdStep_flags_counter (now : Nat) (b : Button) :
    (holdStep now b).flags.counter = b.flags.counter := by
  unfold holdStep; split_ifs <;> rfl

lemma holdStep_counter_reset (now : Nat) (b : Button) :
    (holdStep now b).flags.counter_reset = b.flags.counter_reset := by
  unfold holdStep; split_ifs <;> rfl

lemma holdStep_click_timeout (now : Nat) (b : Button) :
    (holdStep now b).click_timeout = b.click_timeout := by
  unfold holdStep; split_ifs <;> rfl

lemma clickGroupStep_counter_reset (now : Nat) (b : Button) :
    (clickGroupStep now b).flags.counter_reset = b.flags.counter_reset := by
  unfold clickGroupStep; split_ifs <;> rfl

lemma counterResetStep_btn_counter (b : Button) :
    (counterResetStep b).btn_counter = b.btn_counter := by
  unfold counterResetStep; split_ifs <;> rfl

lemma counterResetStep_last_counter (b : Button) :
    (counterResetStep b).last_counter = b.last_counter
    ∨ (counterResetStep b).last_counter = 0 := by
  unfold counterResetStep; split_ifs
  · right; rfl
  · left; rfl

/-- Closed form of the pending click counter after the release block, when the
release transition fires. -/
lemma releaseStep_btn_counter (now : Nat) (b : Button) (h1 : b.btn_state = false)
    (h2 : b.btn_flag = true) :
    (releaseStep now b).btn_counter =
      if b.flags.step_flag then 0
      else if b.flags.hold then b.btn_counter else (b.btn_counter + 1) % 256 := by
  unfold releaseStep; rw [if_pos (by simp [h1, h2])]
  dsimp only; split_ifs <;> simp_all

/-- Preservation of the four intermediate-stage fields used by the click-group
condition, through the debounce/release/hold prefix of a tick. -/
lemma tickMid_flags_counter (lvl : Bool) (now : Nat) (b : Button) :
    (tickMid lvl now b).flags.counter = b.flags.counter := by
  unfold tickMid
  rw [holdStep_flags_counter, releaseStep_flags_counter, debounceStep_flags_counter]

lemma tickMid_counter_reset (lvl : Bool) (now : Nat) (b : Button) :
    (tickMid lvl now b).flags.counter_reset = b.flags.counter_reset := by
  unfold tickMid
  rw [holdStep_counter_reset, releaseStep_counter_reset, debounceStep_counter_reset]

lemma tickMid_click_timeout (lvl : Bool) (now : Nat) (b : Button) :
    (tickMid lvl now b).click_timeout = b.click_timeout := by
  unfold tickMid
  rw [holdStep_click_timeout, releaseStep_click_timeout, debounceStep_click_timeout]

end Button

end HalX

namespace HalX

/-- Detector state just before a hold fires, with one click already pending:
a first quick tap was completed (pending click counter 1, press/release/
single-click flags still latched) and a second press has been confirmed
(`btn_flag`) since its debounce began at t = 70 (`btn_timer`). This is the
state the default-configured detector reaches at t = 569 when the pin is
pressed at t = 0..60, released at t = 61..69 and pressed again from t = 70 on.
-/
def c3pre : Button :=
  { Button.new with
    flags := { ButtonFlags.new with
                 is_press := true
                 is_release := true
                 is_one := true }
    btn_counter := 1
    btn_timer := 70
    btn_state := true
    btn_flag := true }

/-- Claim C3, counterexample: the step at t = 570 raises the hold-started flag
from `c3pre` (where it was false), yet immediately after that step the pending
click counter is still 1, not 0: the hold branch only records the tally into
`last_hold_counter` and does not reset `btn_counter`. -/
theorem c3_hold_keeps_counter_counterexample :
    c3pre.flags.is_holded = false
    ∧ (Button.tick true 570 c3pre).flags.is_holded = true
    ∧ (Button.tick true 570 c3pre).btn_counter = 1
    ∧ (Button.tick true 570 c3pre).last_hold_counter = 1 := by decide

namespace Button

lemma tick_false_shape (now : Nat) (b : Button) :
    tick false now b
      = counterResetStep (clickGroupStep now
          (releaseStep now { b with btn_state := false, flags.btn_deb := false })) := by
  unfold tick tickMid
  rw [debounceStep_of_released now _ rfl]
  rw [holdStep_of_released]
  rw [releaseStep_btn_state]

lemma clickGroupStep_cases (now : Nat) (b : Button) :
    clickGroupStep now b = b
    ∨ ((clickGroupStep now b).flags.counter = true
        ∧ (clickGroupStep now b).btn_counter = 0) := by
  unfold clickGroupStep; split_ifs
  · right; exact ⟨rfl, rfl⟩
  · left; rfl

end Button

/-- Claim C3, amended: the pending click counter is reset to 0 exactly when a
completed click group is finalized and when the release that ends a hold is
processed — not on the step that raises the hold-started flag. Concretely, for
a state with a pending, unacknowledged, non-saturated click tally: a step that
samples the level as pressed (which includes every step that can raise the
hold-started flag) never changes `btn_counter`; a step that samples the level
as released zeroes `btn_counter` only if it finalizes a click group (raising
`flags.counter`) or processes a hold's release (`btn_flag` with `step_flag`
set); and a released-level step with `btn_flag` and `step_flag` set does zero
`btn_counter`. -/
theorem c3_counter_reset_points (b : Button) (now : Nat)
    (hcr : b.flags.counter_reset = false) (hnz : b.btn_counter ≠ 0)
    (hlt : b.btn_counter < 255) :
    (Button.tick true now b).btn_counter = b.btn_counter
    ∧ ((Button.tick false now b).btn_counter = 0 →
        (Button.tick false now b).flags.counter = true
        ∨ (b.btn_flag = true ∧ b.flags.step_flag = true))
    ∧ (b.btn_flag = true → b.flags.step_flag = true →
        (Button.tick false now b).btn_counter = 0) := by
  refine ⟨?_, ?_, ?_⟩
  · unfold Button.tick Button.tickMid
    have hd : (Button.debounceStep now { b with btn_state := true }).btn_state
        = true := by rw [Button.debounceStep_btn_state]
    rw [Button.releaseStep_of_pressed _ _ hd]
    rw [Button.clickGroupStep_of_pressed]
    · rw [Button.counterResetStep_btn_counter, Button.holdStep_btn_counter,
        Button.debounceStep_btn_counter]
    · rw [Button.holdStep_btn_state]; exact hd
  · intro h0
    rw [Button.tick_false_shape] at h0 ⊢
    by_cases hbf : b.btn_flag = true
    · by_cases hsf : b.flags.step_flag = true
      · exact Or.inr ⟨hbf, hsf⟩
      · left
        have hz : (Button.releaseStep now
            { b with btn_state := false, flags.btn_deb := false }).btn_counter ≠ 0 := by
          rw [Button.releaseStep_btn_counter now
            { b with btn_state := false, flags.btn_deb := false } rfl hbf]
          split_ifs with h1 h2
          · exact absurd h1 hsf
          · exact hnz
          · show (b.btn_counter + 1) % 256 ≠ 0
            omega
        rcases Button.clickGroupStep_cases now (Button.releaseStep now
            { b with btn_state := false, flags.btn_deb := false }) with hA | hB
        · rw [hA, Button.counterResetStep_btn_counter] at h0
          exact absurd h0 hz
        · rw [Button.counterResetStep_of_clear]
          · exact hB.1
          · rw [Button.clickGroupStep_counter_reset, Button.releaseStep_counter_reset]
            exact hcr
    · left
      have hrel : Button.releaseStep now
          { b with btn_state := false, flags.btn_deb := false }
          = { b with btn_state := false, flags.btn_deb := false } :=
        Button.releaseStep_of_no_flag now _ (by simpa using hbf)
      rw [hrel] at h0 ⊢
      rcases Button.clickGroupStep_cases now
          ({ b with btn_state := false, flags.btn_deb := false } : Button) with hA | hB
      · rw [hA, Button.counterResetStep_btn_counter] at h0
        exact absurd h0 hnz
      · rw [Button.counterResetStep_of_clear]
        · exact hB.1
        · rw [Button.clickGroupStep_counter_reset]
          exact hcr
  · intro hbf hsf
    rw [Button.tick_false_shape]
    have hz : (Button.releaseStep now
        { b with btn_state := false, flags.btn_deb := false }).btn_counter = 0 := by
      rw [Button.releaseStep_btn_counter now
        { b with btn_state := false, flags.btn_deb := false } rfl hbf]
      show (if b.flags.step_flag = true then 0
        else if b.flags.hold = true then b.btn_counter
        else (b.btn_counter + 1) % 256) = 0
      rw [if_pos hsf]
    rw [Button.clickGroupStep_of_zero _ _ hz, Button.counterResetStep_btn_counter, hz]

/-- Concrete state for the C3 witness: one pending click, released level about
to be processed as the end of a hold. -/
def c3w : Button :=
  { Button.new with
    flags := { ButtonFlags.new with step_flag := true, hold := true }
    btn_flag := true
    btn_counter := 1 }

theorem c3_counter_reset_points_witness :
    (Button.tick true 5 c3w).btn_counter = c3w.btn_counter
    ∧ ((Button.tick false 5 c3w).btn_counter = 0 →
        (Button.tick false 5 c3w).flags.counter = true
        ∨ (c3w.btn_flag = true ∧ c3w.flags.step_flag = true))
    ∧ (c3w.btn_flag = true → c3w.flags.step_flag = true →
        (Button.tick false 5 c3w).btn_counter = 0) :=
  c3_counter_reset_points c3w 5 (by decide) (by decide) (by decide)

end HalX

namespace HalX

namespace Button

lemma counterResetStep_counter_mono (b : Button) :
    (counterResetStep b).flags.counter = true → b.flags.counter = true := by
  unfold counterResetStep; split_ifs <;> simp

lemma clickGroupStep_fired_or (now : Nat) (b : Button) :
    clickGroupStep now b = b
    ∨ (b.click_timeout ≤ wsub now b.btn_timer ∧ b.btn_counter ≠ 0
        ∧ b.btn_state = false) := by
  unfold clickGroupStep; split_ifs with h
  · exact Or.inr ⟨h.1, h.2.1, by simpa using h.2.2⟩
  · exact Or.inl rfl

lemma tickMid_last_counter_of_pressed (now : Nat) (b : Button) :
    (tickMid true now b).last_counter = b.last_counter := by
  unfold tickMid
  rw [releaseStep_of_pressed _ _ (by rw [debounceStep_btn_state])]
  rw [holdStep_last_counter, debounceStep_last_counter]

end Button

/-- Claim C6: click-group finalization never fires on a step whose sampled
level is pressed — such a step can only preserve or clear (by consumer
acknowledgment) the group-ready flag and the finalized count — and whenever a
step raises the group-ready flag, the sampled level was deasserted, the elapsed
time since the last edge (the `btn_timer` of the state the click-group block
runs on) was at least the click-group timeout, and the pending click counter
at that point was nonzero. -/
theorem c6_finalize_conditions (b : Button) (now : Nat) (lvl : Bool) :
    ((Button.tick true now b).flags.counter = true → b.flags.counter = true)
    ∧ ((Button.tick true now b).last_counter = b.last_counter
        ∨ (Button.tick true now b).last_counter = 0)
    ∧ ((Button.tick lvl now b).flags.counter = true → b.flags.counter = false →
        lvl = false
        ∧ b.click_timeout ≤ wsub now (Button.tickMid lvl now b).btn_timer
        ∧ (Button.tickMid lvl now b).btn_counter ≠ 0) := by
  refine ⟨?_, ?_, ?_⟩
  · unfold Button.tick
    rw [Button.clickGroupStep_of_pressed _ _ (Button.tickMid_btn_state true now b)]
    intro h
    have h2 := Button.counterResetStep_counter_mono _ h
    rwa [Button.tickMid_flags_counter] at h2
  · unfold Button.tick
    rw [Button.clickGroupStep_of_pressed _ _ (Button.tickMid_btn_state true now b)]
    rcases Button.counterResetStep_last_counter (Button.tickMid true now b)
      with h | h
    · left; rw [h, Button.tickMid_last_counter_of_pressed]
    · right; exact h
  · intro h hb
    unfold Button.tick at h
    rcases Button.clickGroupStep_fired_or now (Button.tickMid lvl now b)
      with hA | hcond
    · rw [hA] at h
      have h2 := Button.counterResetStep_counter_mono _ h
      rw [Button.tickMid_flags_counter] at h2
      exact absurd h2 (by simp [hb])
    · have hlvl : lvl = false := by
        have h3 := hcond.2.2; rwa [Button.tickMid_btn_state] at h3
      have hto := hcond.1
      rw [Button.tickMid_click_timeout] at hto
      exact ⟨hlvl, hto, hcond.2.1⟩

/-- Concrete detector state with one pending click, used to exercise the
click-group finalization conditions. -/
def c6w : Button := { Button.new with btn_counter := 1 }

theorem c6_finalize_conditions_witness :
    false = false
    ∧ c6w.click_timeout ≤ wsub 500 (Button.tickMid false 500 c6w).btn_timer
    ∧ (Button.tickMid false 500 c6w).btn_counter ≠ 0 :=
  (c6_finalize_conditions c6w 500 false).2.2 (by decide) (by decide)

end HalX

namespace HalX

/-- Detector base for the symbolic runs: Button::new with the debounce, hold
and click-group timing parameters set to d / T / C. -/
def holdBase (d T C : Nat) : Button :=
  { Button.new with debounce := d, timeout := T, click_timeout := C }

/-- Run state: debounce in progress since t = 0 (after the first pressed
sample). -/
def sA (d T C : Nat) : Button :=
  { holdBase d T C with btn_state := true, flags.btn_deb := true }

/-- Run state: press confirmed (debounce passed), tap in flight. -/
def sB (d T C : Nat) : Button :=
  { sA d T C with btn_flag := true, flags.is_press := true, flags.one_click := true }

/-- Run state: confirmed press still held (debounce-in-progress flag dropped
by the first post-confirmation sample). -/
def sBp (d T C : Nat) : Button :=
  { sB d T C with flags.btn_deb := false }

/-- Run state: hold active since time h. -/
def sC (d T C h : Nat) : Button :=
  { sBp d T C with
    flags := { (sBp d T C).flags with
                 hold := true
                 is_holded := true
                 step_flag := true
                 one_click := false }
    btn_timer := h }

/-- Run state: hold released at time r (tap sequence cancelled). -/
def sD (d T C r : Nat) : Button :=
  { sC d T C r with
    flags := { (sC d T C r).flags with
                 hold := false
                 is_release := true
                 step_flag := false }
    btn_state := false
    btn_flag := false }

/-- Run state: single tap released at time r, one click pending. -/
def sE (d T C r : Nat) : Button :=
  { holdBase d T C with
    flags := { ButtonFlags.new with
                 is_press := true
                 is_release := true
                 is_one := true }
    btn_counter := 1
    btn_timer := r }

/-- Run state: the single-tap click group has been finalized. -/
def sF (d T C r : Nat) : Button :=
  { sE d T C r with btn_counter := 0, last_counter := 1, flags.counter := true }

lemma tick_base (d T C : Nat) :
    Button.tick true 0 (holdBase d T C) = sA d T C := by
  simp [Button.tick, Button.tickMid, Button.debounceStep, Button.releaseStep,
    Button.holdStep, Button.clickGroupStep, Button.counterResetStep,
    holdBase, sA, Button.new, ButtonFlags.new]

lemma tick_sA_stay (d T C t : Nat) (ht : t < d) :
    Button.tick true t (sA d T C) = sA d T C := by
  have h1 : ¬(d ≤ t) := by omega
  simp [Button.tick, Button.tickMid, Button.debounceStep, Button.releaseStep,
    Button.holdStep, Button.clickGroupStep, Button.counterResetStep,
    holdBase, sA, Button.new, ButtonFlags.new, wsub_zero, h1]

lemma tick_sA_confirm (d T C t : Nat) (h1 : d ≤ t) (h2 : t < T) :
    Button.tick true t (sA d T C) = sB d T C := by
  have h3 : ¬(T ≤ t) := by omega
  simp [Button.tick, Button.tickMid, Button.debounceStep, Button.releaseStep,
    Button.holdStep, Button.clickGroupStep, Button.counterResetStep,
    holdBase, sA, sB, Button.new, ButtonFlags.new, wsub_zero, h1, h3]

end HalX

namespace HalX

lemma tick_sB_drop (d T C t : Nat) (h2 : t < T) :
    Button.tick true t (sB d T C) = sBp d T C := by
  have h3 : ¬(T ≤ t) := by omega
  simp [Button.tick, Button.tickMid, Button.debounceStep, Button.releaseStep,
    Button.holdStep, Button.clickGroupStep, Button.counterResetStep,
    holdBase, sA, sB, sBp, Button.new, ButtonFlags.new, wsub_zero, h3]

lemma tick_sBp_stay (d T C t : Nat) (h2 : t < T) :
    Button.tick true t (sBp d T C) = sBp d T C := by
  have h3 : ¬(T ≤ t) := by omega
  simp [Button.tick, Button.tickMid, Button.debounceStep, Button.releaseStep,
    Button.holdStep, Button.clickGroupStep, Button.counterResetStep,
    holdBase, sA, sB, sBp, Button.new, ButtonFlags.new, wsub_zero, h3]

lemma tick_sB_hold (d T C t : Nat) (h2 : T ≤ t) :
    Button.tick true t (sB d T C) = sC d T C t := by
  simp [Button.tick, Button.tickMid, Button.debounceStep, Button.releaseStep,
    Button.holdStep, Button.clickGroupStep, Button.counterResetStep,
    holdBase, sA, sB, sBp, sC, Button.new, ButtonFlags.new, wsub_zero, h2]

lemma tick_sBp_hold (d T C t : Nat) (h2 : T ≤ t) :
    Button.tick true t (sBp d T C) = sC d T C t := by
  simp [Button.tick, Button.tickMid, Button.debounceStep, Button.releaseStep,
    Button.holdStep, Button.clickGroupStep, Button.counterResetStep,
    holdBase, sA, sB, sBp, sC, Button.new, ButtonFlags.new, wsub_zero, h2]

lemma tick_sC_stay (d T C h u : Nat) :
    Button.tick true u (sC d T C h) = sC d T C h := by
  simp [Button.tick, Button.tickMid, Button.debounceStep, Button.releaseStep,
    Button.holdStep, Button.clickGroupStep, Button.counterResetStep,
    holdBase, sA, sB, sBp, sC, Button.new, ButtonFlags.new]

lemma tick_sC_release (d T C h u : Nat) :
    Button.tick false u (sC d T C h) = sD d T C u := by
  simp [Button.tick, Button.tickMid, Button.debounceStep, Button.releaseStep,
    Button.holdStep, Button.clickGroupStep, Button.counterResetStep,
    holdBase, sA, sB, sBp, sC, sD, Button.new, ButtonFlags.new]

lemma tick_sD_stay (d T C r u : Nat) :
    Button.tick false u (sD d T C r) = sD d T C r := by
  simp [Button.tick, Button.tickMid, Button.debounceStep, Button.releaseStep,
    Button.holdStep, Button.clickGroupStep, Button.counterResetStep,
    holdBase, sA, sB, sBp, sC, sD, Button.new, ButtonFlags.new]

lemma tick_sBp_release (d T C u : Nat) (hC : 0 < C) :
    Button.tick false u (sBp d T C) = sE d T C u := by
  have hm : (0 + 1) % 256 = 1 := by norm_num
  have hz : wsub u u = 0 := by simp [wsub]
  have h2 : ¬(C ≤ 0) := by omega
  simp [Button.tick, Button.tickMid, Button.debounceStep, Button.releaseStep,
    Button.holdStep, Button.clickGroupStep, Button.counterResetStep,
    holdBase, sA, sB, sBp, sE, Button.new, ButtonFlags.new, hm, hz, h2]

lemma tick_sE_stay (d T C r u : Nat) (h1 : r ≤ u) (h2 : u < r + C) :
    Button.tick false u (sE d T C r) = sE d T C r := by
  have hw : wsub u r = u - r := wsub_of_le h1
  have h3 : ¬(C ≤ u - r) := by omega
  simp [Button.tick, Button.tickMid, Button.debounceStep, Button.releaseStep,
    Button.holdStep, Button.clickGroupStep, Button.counterResetStep,
    holdBase, sE, Button.new, ButtonFlags.new, hw, h3]

lemma tick_sE_final (d T C r u : Nat) (h1 : r + C ≤ u) :
    Button.tick false u (sE d T C r) = sF d T C r := by
  have h0 : r ≤ u := by omega
  have hw : wsub u r = u - r := wsub_of_le h0
  have h3 : C ≤ u - r := by omega
  simp [Button.tick, Button.tickMid, Button.debounceStep, Button.releaseStep,
    Button.holdStep, Button.clickGroupStep, Button.counterResetStep,
    holdBase, sE, sF, Button.new, ButtonFlags.new, hw, h3]

lemma tick_sF_stay (d T C r u : Nat) :
    Button.tick false u (sF d T C r) = sF d T C r := by
  simp [Button.tick, Button.tickMid, Button.debounceStep, Button.releaseStep,
    Button.holdStep, Button.clickGroupStep, Button.counterResetStep,
    holdBase, sE, sF, Button.new, ButtonFlags.new]

end HalX

namespace HalX

/-- Detector state after the steps at t = 0..n of the hold run: pin pressed at
every step with t < R, released from t = R on, starting from a fresh detector
with debounce d, hold timeout T and click-group timeout C, stepped once per
millisecond. -/
def holdRun (d T C R n : Nat) : Button :=
  runBtn (fun t => decide (t < R)) (holdBase d T C) n

/-- Phase-wise description of the hold run: debouncing until t = d, press
confirmed at t = d, held until the hold fires at t = T, hold active until the
release at t = R, idle afterwards. -/
def holdSpec (d T C R t : Nat) : Button :=
  if t < d then sA d T C
  else if t = d then sB d T C
  else if t < T then sBp d T C
  else if t < R then sC d T C T
  else sD d T C R

lemma holdRun_spec (d T C R : Nat) (h1 : 0 < d) (h2 : d < T) (h3 : T < R) :
    ∀ t, holdRun d T C R t = holdSpec d T C R t := by
  intro t
  induction t with
  | zero =>
    show Button.tick (decide (0 < R)) 0 (holdBase d T C) = holdSpec d T C R 0
    rw [decide_eq_true (show 0 < R by omega), tick_base]
    unfold holdSpec
    rw [if_pos h1]
  | succ n ih =>
    show Button.tick (decide (n + 1 < R)) (n + 1) (holdRun d T C R n)
      = holdSpec d T C R (n + 1)
    rw [ih]
    by_cases c1 : n + 1 < d
    · rw [decide_eq_true (show n + 1 < R by omega)]
      have hsn : holdSpec d T C R n = sA d T C := by
        unfold holdSpec; rw [if_pos (by omega)]
      rw [hsn, tick_sA_stay d T C (n + 1) c1]
      unfold holdSpec; rw [if_pos c1]
    · by_cases c2 : n + 1 = d
      · rw [decide_eq_true (show n + 1 < R by omega)]
        have hsn : holdSpec d T C R n = sA d T C := by
          unfold holdSpec; rw [if_pos (by omega)]
        rw [hsn, tick_sA_confirm d T C (n + 1) (by omega) (by omega)]
        unfold holdSpec; rw [if_neg c1, if_pos c2]
      · by_cases c3 : n + 1 < T
        · rw [decide_eq_true (show n + 1 < R by omega)]
          by_cases c4 : n = d
          · have hsn : holdSpec d T C R n = sB d T C := by
              unfold holdSpec; rw [if_neg (by omega), if_pos c4]
            rw [hsn, tick_sB_drop d T C (n + 1) c3]
            unfold holdSpec; rw [if_neg c1, if_neg c2, if_pos c3]
          · have hsn : holdSpec d T C R n = sBp d T C := by
              unfold holdSpec; rw [if_neg (by omega), if_neg c4, if_pos (by omega)]
            rw [hsn, tick_sBp_stay d T C (n + 1) c3]
            unfold holdSpec; rw [if_neg c1, if_neg c2, if_pos c3]
        · by_cases c5 : n + 1 < R
          · rw [decide_eq_true (show n + 1 < R by omega)]
            by_cases c6 : T ≤ n
            · have hsn : holdSpec d T C R n = sC d T C T := by
                unfold holdSpec
                rw [if_neg (by omega), if_neg (by omega), if_neg (by omega),
                  if_pos (by omega)]
              rw [hsn, tick_sC_stay]
              unfold holdSpec; rw [if_neg c1, if_neg c2, if_neg c3, if_pos c5]
            · have hT : n + 1 = T := by omega
              by_cases c4 : n = d
              · have hsn : holdSpec d T C R n = sB d T C := by
                  unfold holdSpec; rw [if_neg (by omega), if_pos c4]
                rw [hsn, tick_sB_hold d T C (n + 1) (by omega), hT]
                unfold holdSpec
                rw [if_neg (by omega), if_neg (by omega), if_neg (by omega),
                  if_pos (by omega)]
              · have hsn : holdSpec d T C R n = sBp d T C := by
                  unfold holdSpec
                  rw [if_neg (by omega), if_neg c4, if_pos (by omega)]
                rw [hsn, tick_sBp_hold d T C (n + 1) (by omega), hT]
                unfold holdSpec
                rw [if_neg (by omega), if_neg (by omega), if_neg (by omega),
                  if_pos (by omega)]
          · rw [decide_eq_false (show ¬(n + 1 < R) by omega)]
            by_cases c7 : n + 1 = R
            · have hsn : holdSpec d T C R n = sC d T C T := by
                unfold holdSpec
                rw [if_neg (by omega), if_neg (by omega), if_neg (by omega),
                  if_pos (by omega)]
              rw [hsn, tick_sC_release, c7]
              unfold holdSpec
              rw [if_neg (by omega), if_neg (by omega), if_neg (by omega),
                if_neg (by omega)]
            · have hsn : holdSpec d T C R n = sD d T C R := by
                unfold holdSpec
                rw [if_neg (by omega), if_neg (by omega), if_neg (by omega),
                  if_neg (by omega)]
              rw [hsn, tick_sD_stay]
              unfold holdSpec
              rw [if_neg c1, if_neg c2, if_neg c3, if_neg c5]

/-- Claim C7: in every hold run (press at t = 0, confirmed at t = d, held
until release at t = R with the hold firing at t = T before that), the
hold-started flag is raised by exactly one step (it holds after step t exactly
when T ≤ t), the single-click flag is never raised, no click group is ever
finalized, the pending click counter stays 0 (in particular after the release
step at t = R, whose release flag is raised). -/
theorem c7_hold_preempts_tap (d T C R : Nat) (h1 : 0 < d) (h2 : d < T)
    (h3 : T < R) :
    (∀ t, ((holdRun d T C R t).flags.is_holded = true ↔ T ≤ t))
    ∧ (∀ t, (holdRun d T C R t).flags.is_one = false)
    ∧ (∀ t, (holdRun d T C R t).flags.counter = false)
    ∧ (∀ t, (holdRun d T C R t).btn_counter = 0)
    ∧ (holdRun d T C R R).flags.is_release = true := by
  have hs := holdRun_spec d T C R h1 h2 h3
  refine ⟨?_, ?_, ?_, ?_, ?_⟩
  · intro t
    rw [hs t]; unfold holdSpec
    split_ifs <;>
      simp [sA, sB, sBp, sC, sD, holdBase, Button.new, ButtonFlags.new] <;>
      omega
  · intro t
    rw [hs t]; unfold holdSpec
    split_ifs <;>
      simp [sA, sB, sBp, sC, sD, holdBase, Button.new, ButtonFlags.new]
  · intro t
    rw [hs t]; unfold holdSpec
    split_ifs <;>
      simp [sA, sB, sBp, sC, sD, holdBase, Button.new, ButtonFlags.new]
  · intro t
    rw [hs t]; unfold holdSpec
    split_ifs <;>
      simp [sA, sB, sBp, sC, sD, holdBase, Button.new, ButtonFlags.new]
  · rw [hs R]; unfold holdSpec
    rw [if_neg (by omega), if_neg (by omega), if_neg (by omega),
      if_neg (by omega)]
    simp [sD, sC, sBp, sB, sA, holdBase, Button.new, ButtonFlags.new]

theorem c7_hold_preempts_tap_witness :
    ((holdRun 60 500 500 501 500).flags.is_holded = true ↔ 500 ≤ 500)
    ∧ (holdRun 60 500 500 501 501).flags.is_one = false
    ∧ (holdRun 60 500 500 501 501).flags.counter = false
    ∧ (holdRun 60 500 500 501 501).btn_counter = 0
    ∧ (holdRun 60 500 500 501 501).flags.is_release = true := by
  have h := c7_hold_preempts_tap 60 500 500 501 (by norm_num) (by norm_num)
    (by norm_num)
  exact ⟨h.1 500, h.2.1 501, h.2.2.1 501, h.2.2.2.1 501, h.2.2.2.2⟩

end HalX

namespace HalX

/-- Pin-level trace of the C5 scenario: pressed at t = 0..80, released from
t = 81 on. -/
def c5lvl (t : Nat) : Bool := decide (t ≤ 80)

/-- Detector state after the steps at t = 0..n of the C5 scenario, starting
from a freshly constructed detector (default configuration) stepped once per
millisecond. -/
def c5st (n : Nat) : Button := runBtn c5lvl Button.new n

/-- Phase-wise description of the C5 run: debouncing until t = 60, press
confirmed at t = 60, held until the release at t = 81, one click pending until
the group finalizes at t = 581. -/
def c5spec (t : Nat) : Button :=
  if t < 60 then sA 60 500 500
  else if t = 60 then sB 60 500 500
  else if t ≤ 80 then sBp 60 500 500
  else if t < 581 then sE 60 500 500 81
  else sF 60 500 500 81

lemma c5_run_spec : ∀ t, c5st t = c5spec t := by
  intro t
  induction t with
  | zero =>
    show Button.tick (c5lvl 0) 0 Button.new = c5spec 0
    rw [show c5lvl 0 = true from rfl,
      show (Button.new : Button) = holdBase 60 500 500 from rfl, tick_base]
    unfold c5spec; rw [if_pos (by norm_num)]
  | succ n ih =>
    show Button.tick (c5lvl (n + 1)) (n + 1) (c5st n) = c5spec (n + 1)
    rw [ih]
    by_cases c1 : n + 1 < 60
    · rw [show c5lvl (n + 1) = true from decide_eq_true (by omega)]
      have hsn : c5spec n = sA 60 500 500 := by
        unfold c5spec; rw [if_pos (by omega)]
      rw [hsn, tick_sA_stay 60 500 500 (n + 1) c1]
      unfold c5spec; rw [if_pos c1]
    · by_cases c2 : n + 1 = 60
      · rw [show c5lvl (n + 1) = true from decide_eq_true (by omega)]
        have hsn : c5spec n = sA 60 500 500 := by
          unfold c5spec; rw [if_pos (by omega)]
        rw [hsn, tick_sA_confirm 60 500 500 (n + 1) (by omega) (by omega)]
        unfold c5spec; rw [if_neg c1, if_pos c2]
      · by_cases c3 : n + 1 ≤ 80
        · rw [show c5lvl (n + 1) = true from decide_eq_true (by omega)]
          by_cases c4 : n = 60
          · have hsn : c5spec n = sB 60 500 500 := by
              unfold c5spec; rw [if_neg (by omega), if_pos c4]
            rw [hsn, tick_sB_drop 60 500 500 (n + 1) (by omega)]
            unfold c5spec; rw [if_neg c1, if_neg c2, if_pos c3]
          · have hsn : c5spec n = sBp 60 500 500 := by
              unfold c5spec; rw [if_neg (by omega), if_neg c4, if_pos (by omega)]
            rw [hsn, tick_sBp_stay 60 500 500 (n + 1) (by omega)]
            unfold c5spec; rw [if_neg c1, if_neg c2, if_pos c3]
        · rw [show c5lvl (n + 1) = false from decide_eq_false (by omega)]
          by_cases c5 : n + 1 = 81
          · have hsn : c5spec n = sBp 60 500 500 := by
              unfold c5spec
              rw [if_neg (by omega), if_neg (by omega), if_pos (by omega)]
            rw [hsn, tick_sBp_release 60 500 500 (n + 1) (by norm_num), c5]
            unfold c5spec
            rw [if_neg (by omega), if_neg (by omega), if_neg (by omega),
              if_pos (by omega)]
          · by_cases c6 : n + 1 < 581
            · have hsn : c5spec n = sE 60 500 500 81 := by
                unfold c5spec
                rw [if_neg (by omega), if_neg (by omega), if_neg (by omega),
                  if_pos (by omega)]
              rw [hsn, tick_sE_stay 60 500 500 81 (n + 1) (by omega) (by omega)]
              unfold c5spec; rw [if_neg c1, if_neg c2, if_neg c3, if_pos c6]
            · by_cases c7 : n + 1 = 581
              · have hsn : c5spec n = sE 60 500 500 81 := by
                  unfold c5spec
                  rw [if_neg (by omega), if_neg (by omega), if_neg (by omega),
                    if_pos (by omega)]
                rw [hsn, tick_sE_final 60 500 500 81 (n + 1) (by omega)]
                unfold c5spec
                rw [if_neg (by omega), if_neg (by omega), if_neg (by omega),
                  if_neg (by omega)]
              · have hsn : c5spec n = sF 60 500 500 81 := by
                  unfold c5spec
                  rw [if_neg (by omega), if_neg (by omega), if_neg (by omega),
                    if_neg (by omega)]
                rw [hsn, tick_sF_stay]
                unfold c5spec; rw [if_neg c1, if_neg c2, if_neg c3, if_neg c6]

/-- Claim C5: in the default-configuration scenario (debounce 60, hold timeout
500, click-group timeout 500, pin pressed at t = 0..80 and released from
t = 81, one step per millisecond) the press flag is raised by the step at
t = 60 and no earlier, the release and single-click flags by the step at
t = 81 and no earlier, the pending click counter is 1 exactly from t = 81
through t = 580, the click group finalizes at the step at t = 581 (the
finalized count becoming 1), and `get_clicks` then returns 1. -/
theorem c5_default_scenario :
    (∀ t, ((c5st t).flags.is_press = true ↔ 60 ≤ t))
    ∧ (∀ t, ((c5st t).flags.is_release = true ↔ 81 ≤ t))
    ∧ (∀ t, ((c5st t).flags.is_one = true ↔ 81 ≤ t))
    ∧ (∀ t, (c5st t).btn_counter = if 81 ≤ t ∧ t ≤ 580 then 1 else 0)
    ∧ (∀ t, ((c5st t).flags.counter = true ↔ 581 ≤ t))
    ∧ (∀ t, (c5st t).last_counter = if 581 ≤ t then 1 else 0)
    ∧ (Button.get_clicks (c5st 581)).1 = 1 := by
  refine ⟨?_, ?_, ?_, ?_, ?_, ?_, ?_⟩
  · intro t
    rw [c5_run_spec t]; unfold c5spec
    split_ifs <;>
      simp [sA, sB, sBp, sE, sF, holdBase, Button.new, ButtonFlags.new] <;>
      omega
  · intro t
    rw [c5_run_spec t]; unfold c5spec
    split_ifs <;>
      simp [sA, sB, sBp, sE, sF, holdBase, Button.new, ButtonFlags.new] <;>
      omega
  · intro t
    rw [c5_run_spec t]; unfold c5spec
    split_ifs <;>
      simp [sA, sB, sBp, sE, sF, holdBase, Button.new, ButtonFlags.new] <;>
      omega
  · intro t
    rw [c5_run_spec t]; unfold c5spec
    split_ifs <;>
      simp [sA, sB, sBp, sE, sF, holdBase, Button.new, ButtonFlags.new] <;>
      omega
  · intro t
    rw [c5_run_spec t]; unfold c5spec
    split_ifs <;>
      simp [sA, sB, sBp, sE, sF, holdBase, Button.new, ButtonFlags.new] <;>
      omega
  · intro t
    rw [c5_run_spec t]; unfold c5spec
    split_ifs <;>
      simp [sA, sB, sBp, sE, sF, holdBase, Button.new, ButtonFlags.new] <;>
      omega
  · rw [c5_run_spec 581]; unfold c5spec
    rw [if_neg (by omega), if_neg (by omega), if_neg (by omega),
      if_neg (by omega)]
    simp [Button.get_clicks, sF, sE, holdBase, Button.new, ButtonFlags.new]

end HalX
